import Mathlib

/-!
Shallow embedding of the TSP game frontend (src/frontend/src/App.jsx).

The React component's `useState` cells become the fields of `AppState`;
each event handler becomes a pure function from a state (plus the outcome
of any network request it performs) to the next state.  JavaScript
peculiarities that matter to the claims are modelled explicitly:
`String.prototype.trim` (`jsTrim`), string truthiness in `data.error ||
fallback` (`jsOrStr`) and in `if (!sessionId)` (`jsFalsyStr`).
-/

/-- Model of a 2-D point used for city positions on the SVG map. -/
abbrev Pos : Type := ℚ × ℚ

/-- Model of JavaScript `String.prototype.trim`: drop whitespace from both
ends.  Lean's own `String.trim` is not kernel-reducible, so we define it
over the character list. -/
def jsTrim (s : String) : String :=
  ⟨((s.data.dropWhile Char.isWhitespace).reverse.dropWhile Char.isWhitespace).reverse⟩

/-- Model of `o || fallback` where `o` is a possibly-absent string field of
a parsed JSON body: JavaScript treats both `undefined` and the empty
string as falsy. -/
def jsOrStr (o : Option String) (fallback : String) : String :=
  match o with
  | none => fallback
  | some s => if s = "" then fallback else s

/-- Model of `!x` for a nullable string `x` (`if (!sessionId)`):
`null`/`undefined` and `""` are falsy. -/
def jsFalsyStr (o : Option String) : Bool :=
  match o with
  | none => true
  | some s => decide (s = "")

/-- Parsed body of a successful `POST /api/new-game` response
(`data.sessionId`, `data.cities`, `data.homeCity`, `data.distanceMatrix`). -/
structure NewGameData where
  sessionId : String
  cities : List String
  homeCity : String
  distanceMatrix : List (List Nat)

/-- Per-algorithm entry of an evaluation report
(`result.algorithms[name]`). -/
structure AlgoInfo where
  route : List String
  distance : Nat
  durationMs : ℚ

/-- Parsed body of a successful `POST /api/check-answer` response, held in
the `result` state cell. -/
structure ResultData where
  correct : Bool
  message : String
  yourRoute : List String
  yourDistance : Nat
  optimalRoute : List String
  optimalDistance : Nat
  algorithms : List (String × AlgoInfo)

/-- Outcome of one `fetch` + `res.json()` interaction, as observed by the
`try`/`catch` in the handlers: an exception with a message (network or
JSON-parse failure), a non-ok HTTP response whose body may carry an
`error` field, or an ok response with a parsed body. -/
inductive NetResult (β : Type) where
  | thrown (msg : String)
  | notOk (err : Option String)
  | ok (body : β)

/-- Request body (plus target URL) of the `fetch` in `submitAnswer`
(src/frontend/src/App.jsx lines 228–236): the code sends `sessionId`,
`playerName` and `routeBetween`. -/
structure CheckAnswerRequest where
  url : String
  sessionId : String
  playerName : String
  routeBetween : List String

/-- The React component's state: one field per `useState` cell of `App`
(src/frontend/src/App.jsx lines 125–135). -/
structure AppState where
  playerName : String
  sessionId : Option String
  cities : List String
  homeCity : Option String
  distanceMatrix : List (List Nat)
  selectedCities : List String
  routeBetween : List String
  result : Option ResultData
  loading : Bool
  error : Option String
  cityPositions : String → Option Pos

/-- Initial state of the component (the `useState` initial values). -/
def initState : AppState where
  playerName := ""
  sessionId := none
  cities := []
  homeCity := none
  distanceMatrix := []
  selectedCities := []
  routeBetween := []
  result := none
  loading := false
  error := none
  cityPositions := fun _ => none

/-- Recursion worker for `generateRandomPositions`: `cityList.forEach`
assigns `positions[city] = {x, y}` in order, drawing two random numbers
per city (`Math.random()` is modelled as the stream `rnd`, consumed at
indices `k, k+1, ...`); a later duplicate city overwrites an earlier one. -/
def genPosGo (rnd : ℕ → ℚ) : List String → ℕ → (String → Option Pos) → (String → Option Pos)
  | [], _, acc => acc
  | city :: rest, k, acc =>
      genPosGo rnd rest (k + 2)
        (fun c =>
          if c = city then some (30 + rnd k * (260 - 30 * 2), 30 + rnd (k + 1) * (260 - 30 * 2))
          else acc c)

/-- Model of `generateRandomPositions` (src/frontend/src/App.jsx lines
137–148): `width = height = 260`, `margin = 30`, each coordinate is
`margin + Math.random() * (width - margin * 2)`. -/
def generateRandomPositions (cityList : List String) (rnd : ℕ → ℚ) : String → Option Pos :=
  genPosGo rnd cityList 0 (fun _ => none)

/-- Model of `startNewGame` (src/frontend/src/App.jsx lines 150–180).
`net` is the outcome of the `fetch('/api/new-game')` + `res.json()` pair
(consulted only if the player-name guard passes); `rnd` feeds
`generateRandomPositions`. -/
def startNewGame (s : AppState) (net : NetResult NewGameData) (rnd : ℕ → ℚ) : AppState :=
  let s0 := { s with error := none, result := none }
  if jsTrim s0.playerName = "" then
    { s0 with error := some "Please enter your player name first." }
  else
    match net with
    | NetResult.thrown msg => { s0 with error := some msg }
    | NetResult.notOk err => { s0 with error := some (jsOrStr err "Failed to start game") }
    | NetResult.ok data =>
        { s0 with
          sessionId := some data.sessionId
          cities := data.cities
          homeCity := some data.homeCity
          distanceMatrix := data.distanceMatrix
          selectedCities := []
          routeBetween := []
          cityPositions := generateRandomPositions data.cities rnd }

/-- Model of `toggleSelectedCity` (src/frontend/src/App.jsx lines
182–193): no-op on the home city; otherwise clears `result`, adds or
removes `city` from `selectedCities`, and filters `routeBetween` down to
the cities still selected. -/
def toggleSelectedCity (s : AppState) (city : String) : AppState :=
  if some city = s.homeCity then s
  else
    let next :=
      if city ∈ s.selectedCities then s.selectedCities.filter (fun c => decide (c ≠ city))
      else s.selectedCities ++ [city]
    { s with
      result := none
      selectedCities := next
      routeBetween := s.routeBetween.filter (fun c => decide (c ∈ next)) }

/-- Model of `addToRoute` (src/frontend/src/App.jsx lines 195–203): no-op
on a city that is not selected; otherwise clears `result` and appends the
city to `routeBetween` unless it is already there. -/
def addToRoute (s : AppState) (city : String) : AppState :=
  if city ∈ s.selectedCities then
    if city ∈ s.routeBetween then { s with result := none }
    else { s with result := none, routeBetween := s.routeBetween ++ [city] }
  else s

/-- Model of `clearRoute` (src/frontend/src/App.jsx lines 205–207). -/
def clearRoute (s : AppState) : AppState :=
  { s with routeBetween := [] }

/-- Model of `submitAnswer` (src/frontend/src/App.jsx lines 209–245).
Returns the next state together with the request sent to the server
(`none` if a guard fired before the `fetch`). -/
def submitAnswer (s : AppState) (net : NetResult ResultData) : AppState × Option CheckAnswerRequest :=
  let s0 := { s with error := none, result := none }
  if jsFalsyStr s0.sessionId then
    ({ s0 with error := some "Start a new game first." }, none)
  else if jsTrim s0.playerName = "" then
    ({ s0 with error := some "Please enter your player name." }, none)
  else if s0.routeBetween.length = 0 then
    ({ s0 with error := some "Build a route by clicking on selected cities." }, none)
  else
    let req : CheckAnswerRequest :=
      { url := "/api/check-answer"
        sessionId := s0.sessionId.getD ""
        playerName := s0.playerName
        routeBetween := s0.routeBetween }
    match net with
    | NetResult.thrown msg => ({ s0 with error := some msg, loading := false }, some req)
    | NetResult.notOk err =>
        ({ s0 with error := some (jsOrStr err "Failed to check answer"), loading := false }, some req)
    | NetResult.ok data => ({ s0 with result := some data, loading := false }, some req)

/-- One labelled edge of the SVG map. -/
structure Edge where
  x1 : ℚ
  y1 : ℚ
  x2 : ℚ
  y2 : ℚ
  label : Nat

/-- Model of the `edges` memo of `CityMap` (src/frontend/src/App.jsx lines
9–31): for each index pair `i < j` it looks up both positions and
`distanceMatrix[i]?.[j]`, skipping the pair if any is missing. -/
def edges (cities : List String) (dm : List (List Nat)) (pos : String → Option Pos) : List Edge :=
  if cities.length = 0 ∨ dm.length = 0 then []
  else
    (List.range cities.length).flatMap (fun i =>
      (List.range' (i + 1) (cities.length - (i + 1))).filterMap (fun j =>
        match pos (cities.getD i ""), pos (cities.getD j ""), (dm.getD i [])[j]? with
        | some p1, some p2, some d => some ⟨p1.1, p1.2, p2.1, p2.2, d⟩
        | _, _, _ => none))

/-- All index pairs `(i, j)` with `i < j < n`, in the enumeration order of
the nested loops of `CityMap.edges`. -/
def allPairs (n : ℕ) : List (ℕ × ℕ) :=
  (List.range n).flatMap (fun i =>
    (List.range' (i + 1) (n - (i + 1))).map (fun j => (i, j)))

/-- The edge the map is expected to draw for the pair `(i, j)`: endpoints
at the positions of `cities[i]` and `cities[j]`, labelled with
`distanceMatrix[i][j]`. -/
def edgeFor (cities : List String) (dm : List (List Nat)) (p : String → Pos) (ij : ℕ × ℕ) : Edge :=
  { x1 := (p (cities.getD ij.1 "")).1
    y1 := (p (cities.getD ij.1 "")).2
    x2 := (p (cities.getD ij.2 "")).1
    y2 := (p (cities.getD ij.2 "")).2
    label := (dm.getD ij.1 []).getD ij.2 0 }

/-- One cell of the distance grid: the diagonal renders as a dash, any
other cell renders the matrix entry. -/
inductive Cell where
  | dash
  | dist (d : ℕ)
deriving DecidableEq

/-- Model of the table body built by `renderMatrix` (src/frontend/src/App.jsx
lines 247–273): row `i` is headed by `cities[i]` and its cells render
`row[j]`, with a dash on the diagonal. -/
def renderMatrixRows (cities : List String) (dm : List (List Nat)) : List (Option String × List Cell) :=
  dm.enum.map (fun ir =>
    (cities[ir.1]?, ir.2.enum.map (fun jd => if ir.1 = jd.1 then Cell.dash else Cell.dist jd.2)))

/-- Row label of row `i` of the rendered distance grid. -/
def matrixRowLabel (cities : List String) (dm : List (List Nat)) (i : ℕ) : Option String :=
  ((renderMatrixRows cities dm).getD i (none, [])).1

/-- Cell `(i, j)` of the rendered distance grid. -/
def matrixCellAt (cities : List String) (dm : List (List Nat)) (i j : ℕ) : Cell :=
  (((renderMatrixRows cities dm).getD i (none, [])).2).getD j Cell.dash

/-- The full route the UI constructs and displays: `CityMap.routePoints`
builds `[homeCity, ...(routeBetween || []), homeCity]` (src/frontend/src/App.jsx
line 35) and the "Your current path" strip renders home, the
`routeBetween` cities, then home again (lines 399–409).  Empty when no
home city is set (both sites are guarded on `homeCity`). -/
def fullRouteUI (s : AppState) : List String :=
  match s.homeCity with
  | none => []
  | some h => [h] ++ s.routeBetween ++ [h]

/-- One UI event, relating a state to its successor.  `toggle` carries the
fact that the city-chip buttons are rendered only for members of `cities`
(src/frontend/src/App.jsx line 342); the other handlers guard their inputs
themselves. -/
inductive Step : AppState → AppState → Prop where
  | setName (s : AppState) (name : String) : Step s { s with playerName := name }
  | newGame (s : AppState) (net : NetResult NewGameData) (rnd : ℕ → ℚ) :
      Step s (startNewGame s net rnd)
  | toggle (s : AppState) (city : String) (hc : city ∈ s.cities) :
      Step s (toggleSelectedCity s city)
  | addR (s : AppState) (city : String) : Step s (addToRoute s city)
  | clear (s : AppState) : Step s (clearRoute s)
  | submit (s : AppState) (net : NetResult ResultData) : Step s (submitAnswer s net).1

/-- UI states reachable from the initial render through event handlers. -/
inductive Reachable : AppState → Prop where
  | init : Reachable initState
  | step {s s' : AppState} : Reachable s → Step s s' → Reachable s'

/-- The selection/route invariant maintained by the handlers:
the selection is duplicate-free, drawn from the session's city list and
home-free; the built route is duplicate-free and drawn from the selection. -/
def StateInv (s : AppState) : Prop :=
  s.selectedCities.Nodup ∧
  (∀ c ∈ s.selectedCities, c ∈ s.cities) ∧
  (∀ h, s.homeCity = some h → h ∉ s.selectedCities) ∧
  s.routeBetween.Nodup ∧
  (∀ c ∈ s.routeBetween, c ∈ s.selectedCities)

lemma stateInv_init : StateInv initState := by
  refine ⟨List.nodup_nil, ?_, ?_, List.nodup_nil, ?_⟩ <;> simp [initState]

lemma stateInv_toggle {s : AppState} (inv : StateInv s) (city : String)
    (hc : city ∈ s.cities) : StateInv (toggleSelectedCity s city) := by
  obtain ⟨hsnd, hsc, hhs, hrnd, hrs⟩ := inv
  unfold toggleSelectedCity
  by_cases hhome : some city = s.homeCity
  · simpa [hhome] using ⟨hsnd, hsc, hhs, hrnd, hrs⟩
  · simp only [if_neg hhome]
    by_cases hmem : city ∈ s.selectedCities
    · simp only [if_pos hmem]
      refine ⟨hsnd.filter _, ?_, ?_, hrnd.filter _, ?_⟩
      · intro c hcmem
        exact hsc c (List.mem_filter.mp hcmem).1
      · intro h hh hmemf
        exact hhs h hh (List.mem_filter.mp hmemf).1
      · intro c hcmem
        have := (List.mem_filter.mp hcmem).2
        simpa using this
    · simp only [if_neg hmem]
      have hnodup : (s.selectedCities ++ [city]).Nodup := by
        simp [List.nodup_append, hsnd, hmem]
      refine ⟨hnodup, ?_, ?_, hrnd.filter _, ?_⟩
      · intro c hcmem
        rcases List.mem_append.mp hcmem with h1 | h1
        · exact hsc c h1
        · simp at h1; subst h1; exact hc
      · intro h hh hmemf
        rcases List.mem_append.mp hmemf with h1 | h1
        · exact hhs h hh h1
        · simp at h1; subst h1; exact hhome hh.symm
      · intro c hcmem
        have := (List.mem_filter.mp hcmem).2
        simpa using this

lemma stateInv_addToRoute {s : AppState} (inv : StateInv s) (city : String) :
    StateInv (addToRoute s city) := by
  obtain ⟨hsnd, hsc, hhs, hrnd, hrs⟩ := inv
  unfold addToRoute
  by_cases hsel : city ∈ s.selectedCities
  · simp only [if_pos hsel]
    by_cases hrb : city ∈ s.routeBetween
    · simpa [hrb] using ⟨hsnd, hsc, hhs, hrnd, hrs⟩
    · simp only [if_neg hrb]
      refine ⟨hsnd, hsc, hhs, ?_, ?_⟩
      · simp [List.nodup_append, hrnd, hrb]
      · intro c hcmem
        rcases List.mem_append.mp hcmem with h1 | h1
        · exact hrs c h1
        · simp at h1; subst h1; exact hsel
  · simpa [hsel] using ⟨hsnd, hsc, hhs, hrnd, hrs⟩

lemma stateInv_clearRoute {s : AppState} (inv : StateInv s) : StateInv (clearRoute s) := by
  obtain ⟨hsnd, hsc, hhs, _, _⟩ := inv
  exact ⟨hsnd, hsc, hhs, List.nodup_nil, by simp [clearRoute]⟩

lemma stateInv_startNewGame {s : AppState} (inv : StateInv s) (net : NetResult NewGameData)
    (rnd : ℕ → ℚ) : StateInv (startNewGame s net rnd) := by
  obtain ⟨hsnd, hsc, hhs, hrnd, hrs⟩ := inv
  unfold startNewGame
  by_cases hname : jsTrim s.playerName = ""
  · simpa [hname] using ⟨hsnd, hsc, hhs, hrnd, hrs⟩
  · cases net with
    | thrown msg => simpa [hname] using ⟨hsnd, hsc, hhs, hrnd, hrs⟩
    | notOk err => simpa [hname] using ⟨hsnd, hsc, hhs, hrnd, hrs⟩
    | ok data =>
        simp only [hname, if_neg, ite_false]
        exact ⟨List.nodup_nil, by simp, by simp, List.nodup_nil, by simp⟩

lemma stateInv_submitAnswer {s : AppState} (inv : StateInv s) (net : NetResult ResultData) :
    StateInv (submitAnswer s net).1 := by
  obtain ⟨hsnd, hsc, hhs, hrnd, hrs⟩ := inv
  unfold submitAnswer
  by_cases h1 : jsFalsyStr s.sessionId
  · simpa [h1] using ⟨hsnd, hsc, hhs, hrnd, hrs⟩
  · by_cases h2 : jsTrim s.playerName = ""
    · simpa [h1, h2] using ⟨hsnd, hsc, hhs, hrnd, hrs⟩
    · by_cases h3 : s.routeBetween.length = 0
      · simpa [h1, h2, h3] using ⟨hsnd, hsc, hhs, hrnd, hrs⟩
      · cases net <;> simpa [h1, h2, h3] using ⟨hsnd, hsc, hhs, hrnd, hrs⟩

lemma stateInv_setName {s : AppState} (inv : StateInv s) (name : String) :
    StateInv { s with playerName := name } := inv

lemma stateInv_of_step {s s' : AppState} (inv : StateInv s) (st : Step s s') : StateInv s' := by
  cases st with
  | setName name => exact stateInv_setName inv name
  | newGame net rnd => exact stateInv_startNewGame inv net rnd
  | toggle city hc => exact stateInv_toggle inv city hc
  | addR city => exact stateInv_addToRoute inv city
  | clear => exact stateInv_clearRoute inv
  | submit net => exact stateInv_submitAnswer inv net

lemma stateInv_of_reachable {s : AppState} (hr : Reachable s) : StateInv s := by
  induction hr with
  | init => exact stateInv_init
  | step _ st ih => exact stateInv_of_step ih st

/-- A concrete `new-game` response: three cities, home `A`, the symmetric
matrix of the spec's worked scenario. -/
def exData : NewGameData :=
  { sessionId := "s1"
    cities := ["A", "B", "C"]
    homeCity := "A"
    distanceMatrix := [[0, 50, 100], [50, 0, 75], [100, 75, 0]] }

/-- A degenerate random stream (every draw is `0`). -/
def rnd0 : ℕ → ℚ := fun _ => 0

/-- Initial state after typing a player name. -/
def exS1 : AppState := { initState with playerName := "p" }

/-- State after a successful new-game request. -/
def exS2 : AppState := startNewGame exS1 (NetResult.ok exData) rnd0

/-- State after selecting city `B`. -/
def exS3 : AppState := toggleSelectedCity exS2 "B"

/-- State after adding `B` to the route. -/
def exS4 : AppState := addToRoute exS3 "B"

lemma reachable_exS2 : Reachable exS2 :=
  Reachable.step (Reachable.step Reachable.init (Step.setName initState "p"))
    (Step.newGame exS1 (NetResult.ok exData) rnd0)

lemma reachable_exS4 : Reachable exS4 :=
  Reachable.step (Reachable.step reachable_exS2 (Step.toggle exS2 "B" (by decide)))
    (Step.addR exS3 "B")

/-- C3: in every reachable UI state the built route `routeBetween` contains
no duplicate cities, never contains the session's home city, and only
contains cities currently in `selectedCities` (hence cities of the
session's city list); reachability quantifies over arbitrary sequences of
`toggleSelectedCity`, `addToRoute`, `clearRoute` and the other handlers. -/
theorem routeBetween_invariant (s : AppState) (hr : Reachable s) :
    s.routeBetween.Nodup ∧
    (∀ h, s.homeCity = some h → h ∉ s.routeBetween) ∧
    (∀ c ∈ s.routeBetween, c ∈ s.selectedCities) ∧
    (∀ c ∈ s.routeBetween, c ∈ s.cities) := by
  obtain ⟨hsnd, hsc, hhs, hrnd, hrs⟩ := stateInv_of_reachable hr
  exact ⟨hrnd, fun h hh hmem => hhs h hh (hrs _ hmem), hrs, fun c hc => hsc c (hrs c hc)⟩

/-- Witness for `routeBetween_invariant` at the concrete reachable state
`exS4` (home `A`, route `[B]`). -/
theorem routeBetween_invariant_witness :
    exS4.routeBetween.Nodup ∧
    (∀ h, exS4.homeCity = some h → h ∉ exS4.routeBetween) ∧
    (∀ c ∈ exS4.routeBetween, c ∈ exS4.selectedCities) ∧
    (∀ c ∈ exS4.routeBetween, c ∈ exS4.cities) :=
  routeBetween_invariant exS4 reachable_exS4

/-- C5: whenever a home city is set, the route the UI constructs and
displays is `[home] ++ routeBetween ++ [home]`: its length is `k + 2` for
`k` cities in between, and the home city occurs exactly twice, namely at
the first and last position. -/
theorem fullRouteUI_home_to_home (s : AppState) (h : String) (hr : Reachable s)
    (hh : s.homeCity = some h) :
    fullRouteUI s = [h] ++ s.routeBetween ++ [h] ∧
    (fullRouteUI s).length = s.routeBetween.length + 2 ∧
    (fullRouteUI s).count h = 2 ∧
    (fullRouteUI s).head? = some h ∧
    (fullRouteUI s).getLast? = some h := by
  obtain ⟨hsnd, hsc, hhs, hrnd, hrs⟩ := stateInv_of_reachable hr
  have hnothome : h ∉ s.routeBetween := fun hmem => hhs h hh (hrs h hmem)
  have heq : fullRouteUI s = [h] ++ s.routeBetween ++ [h] := by
    simp [fullRouteUI, hh]
  refine ⟨heq, ?_, ?_, ?_, ?_⟩
  · rw [heq]; simp
  · rw [heq]
    simp [List.count_append, List.count_eq_zero.mpr hnothome]
  · rw [heq]; simp
  · rw [heq]
    show (h :: (s.routeBetween ++ [h])).getLast? = some h
    rw [← List.cons_append, List.getLast?_concat]

/-- Witness for `fullRouteUI_home_to_home` at the concrete reachable state
`exS4` (home `A`, route `[B]`). -/
theorem fullRouteUI_home_to_home_witness :
    fullRouteUI exS4 = ["A"] ++ exS4.routeBetween ++ ["A"] ∧
    (fullRouteUI exS4).length = exS4.routeBetween.length + 2 ∧
    (fullRouteUI exS4).count "A" = 2 ∧
    (fullRouteUI exS4).head? = some "A" ∧
    (fullRouteUI exS4).getLast? = some "A" :=
  fullRouteUI_home_to_home exS4 "A" reachable_exS4 (by decide)

/-- C8: whenever `toggleSelectedCity` or `addToRoute` changes anything at
all (in particular the selection or the route), the `result` cell is
cleared; the only alternative is that the call left the state identical. -/
theorem selection_handlers_clear_result (s : AppState) (city : String) :
    (toggleSelectedCity s city = s ∨ (toggleSelectedCity s city).result = none) ∧
    (addToRoute s city = s ∨ (addToRoute s city).result = none) := by
  constructor
  · unfold toggleSelectedCity
    by_cases hh : some city = s.homeCity
    · left; simp [hh]
    · right; simp [hh]
  · unfold addToRoute
    by_cases h1 : city ∈ s.selectedCities
    · by_cases h2 : city ∈ s.routeBetween
      · right; simp [h1, h2]
      · right; simp [h1, h2]
    · left; simp [h1]

/-- C4: whenever the built route is empty, `submitAnswer` sends no request
to the server and leaves an error message in the `error` cell. -/
theorem submitAnswer_empty_route_rejected (s : AppState) (net : NetResult ResultData)
    (hroute : s.routeBetween = []) :
    (submitAnswer s net).2 = none ∧ ((submitAnswer s net).1).error.isSome = true := by
  unfold submitAnswer
  by_cases h1 : jsFalsyStr s.sessionId
  · simp [h1]
  · by_cases h2 : jsTrim s.playerName = ""
    · simp [h1, h2]
    · simp [h1, h2, hroute]

/-- Witness for `submitAnswer_empty_route_rejected` at the concrete state
`exS2` (fresh round, empty route). -/
theorem submitAnswer_empty_route_rejected_witness :
    exS2.routeBetween = [] ∧
    ((submitAnswer exS2 (NetResult.thrown "x")).2 = none ∧
     ((submitAnswer exS2 (NetResult.thrown "x")).1).error.isSome = true) :=
  ⟨by decide, submitAnswer_empty_route_rejected exS2 (NetResult.thrown "x") (by decide)⟩

/-- A `new-game` response with the full ten-city pool `A`–`J` and home
city `A`. -/
def exTen : NewGameData :=
  { sessionId := "s2"
    cities := ["A", "B", "C", "D", "E", "F", "G", "H", "I", "J"]
    homeCity := "A"
    distanceMatrix := [] }

/-- C2 (code bug): `toggleSelectedCity` enforces no cap on the selection.
Starting a round with the ten-city pool and toggling each of the nine
non-home cities once leaves nine cities selected, exceeding the documented
limit of eight. -/
theorem toggle_has_no_eight_cap :
    (List.foldl toggleSelectedCity
        (startNewGame { initState with playerName := "p" } (NetResult.ok exTen) rnd0)
        ["B", "C", "D", "E", "F", "G", "H", "I", "J"]).selectedCities.length = 9 := by
  decide

/-- A concrete `check-answer` response body. -/
def exResult : ResultData :=
  { correct := true
    message := "m"
    yourRoute := ["A", "B", "A"]
    yourDistance := 100
    optimalRoute := ["A", "B", "A"]
    optimalDistance := 100
    algorithms := [] }

/-- C1 (counterexample): at the reachable state `exS4` (home `A`, built
route `[B]`) the body `submitAnswer` sends is
`{ sessionId, playerName, routeBetween }` whose only city list is
`routeBetween = [B]` — it neither begins nor ends with the session's home
city `A`, so the request does not carry the full home-to-home route the
claim describes. -/
theorem submit_body_not_home_to_home :
    (submitAnswer exS4 (NetResult.ok exResult)).2 =
      some { url := "/api/check-answer", sessionId := "s1", playerName := "p",
             routeBetween := ["B"] } ∧
    exS4.homeCity = some "A" ∧
    (["B"] : List String).head? ≠ some "A" ∧
    (["B"] : List String).getLast? ≠ some "A" :=
  ⟨rfl, rfl, by decide, by decide⟩

/-- C1 (amended): whenever `submitAnswer` passes its guards (a session is
active, the trimmed player name is non-empty, the built route is
non-empty), the request it sends goes to `/api/check-answer` with body
`{ sessionId, playerName, routeBetween }`, where `routeBetween` is exactly
the in-between route held in the state — without the home city at either
end. -/
theorem submit_body_fields (s : AppState) (net : NetResult ResultData) (sid : String)
    (hsid : s.sessionId = some sid) (hsid2 : sid ≠ "")
    (hname : jsTrim s.playerName ≠ "") (hroute : s.routeBetween ≠ []) :
    (submitAnswer s net).2 =
      some { url := "/api/check-answer", sessionId := sid,
             playerName := s.playerName, routeBetween := s.routeBetween } := by
  unfold submitAnswer
  have h1 : jsFalsyStr s.sessionId = false := by simp [jsFalsyStr, hsid, hsid2]
  have h3 : ¬ s.routeBetween.length = 0 := by
    simpa [List.length_eq_zero] using hroute
  cases net <;> simp [h1, hname, h3, hsid, jsFalsyStr, hsid2]

/-- Witness for `submit_body_fields` at the concrete state `exS4`. -/
theorem submit_body_fields_witness :
    exS4.sessionId = some "s1" ∧ "s1" ≠ "" ∧ jsTrim exS4.playerName ≠ "" ∧
    exS4.routeBetween ≠ [] ∧
    (submitAnswer exS4 (NetResult.thrown "x")).2 =
      some { url := "/api/check-answer", sessionId := "s1",
             playerName := exS4.playerName, routeBetween := exS4.routeBetween } :=
  ⟨by decide, by decide, by decide, by decide,
   submit_body_fields exS4 (NetResult.thrown "x") "s1" (by decide) (by decide)
     (by decide) (by decide)⟩

/-- C7 (counterexample): a failed response whose body carries the error
field with the empty string is not surfaced verbatim — JavaScript's
`data.error || fallback` treats `""` as falsy, so the generic fallback is
shown instead. -/
theorem empty_error_field_replaced_by_fallback :
    (startNewGame exS1 (NetResult.notOk (some "")) rnd0).error =
      some "Failed to start game" ∧
    (some "Failed to start game" : Option String) ≠ some "" :=
  ⟨rfl, by decide⟩

/-- C7 (amended): for a failed response whose body carries a non-empty
`error` string, the handlers store exactly that string in the `error` cell
(which the error toast renders); when the field is absent or empty, the
per-call generic fallback is stored instead. -/
theorem error_message_shown_verbatim (s : AppState) (msg sid : String) (rnd : ℕ → ℚ)
    (hname : jsTrim s.playerName ≠ "") (hmsg : msg ≠ "")
    (hsid : s.sessionId = some sid) (hsid2 : sid ≠ "") (hroute : s.routeBetween ≠ []) :
    (startNewGame s (NetResult.notOk (some msg)) rnd).error = some msg ∧
    (startNewGame s (NetResult.notOk none) rnd).error = some "Failed to start game" ∧
    (startNewGame s (NetResult.notOk (some "")) rnd).error = some "Failed to start game" ∧
    (submitAnswer s (NetResult.notOk (some msg))).1.error = some msg ∧
    (submitAnswer s (NetResult.notOk none)).1.error = some "Failed to check answer" ∧
    (submitAnswer s (NetResult.notOk (some ""))).1.error = some "Failed to check answer" := by
  have h1 : jsFalsyStr s.sessionId = false := by simp [jsFalsyStr, hsid, hsid2]
  have h3 : ¬ s.routeBetween.length = 0 := by
    simpa [List.length_eq_zero] using hroute
  refine ⟨?_, ?_, ?_, ?_, ?_, ?_⟩ <;>
    simp [startNewGame, submitAnswer, hname, hmsg, h1, h3, jsOrStr]

/-- Witness for `error_message_shown_verbatim` at the concrete state
`exS4` with error message `boom`. -/
theorem error_message_shown_verbatim_witness :
    (jsTrim exS4.playerName ≠ "" ∧ ("boom" : String) ≠ "" ∧
     exS4.sessionId = some "s1" ∧ ("s1" : String) ≠ "" ∧ exS4.routeBetween ≠ []) ∧
    ((startNewGame exS4 (NetResult.notOk (some "boom")) rnd0).error = some "boom" ∧
     (startNewGame exS4 (NetResult.notOk none) rnd0).error = some "Failed to start game" ∧
     (startNewGame exS4 (NetResult.notOk (some "")) rnd0).error = some "Failed to start game" ∧
     (submitAnswer exS4 (NetResult.notOk (some "boom"))).1.error = some "boom" ∧
     (submitAnswer exS4 (NetResult.notOk none)).1.error = some "Failed to check answer" ∧
     (submitAnswer exS4 (NetResult.notOk (some ""))).1.error = some "Failed to check answer") :=
  ⟨⟨by decide, by decide, by decide, by decide, by decide⟩,
   error_message_shown_verbatim exS4 "boom" "s1" rnd0 (by decide) (by decide) (by decide)
     (by decide) (by decide)⟩

/-- All state cells except `error` and `result` agree between `s` and
`s'`. -/
def SameGameState (s s' : AppState) : Prop :=
  s'.playerName = s.playerName ∧
  s'.sessionId = s.sessionId ∧
  s'.cities = s.cities ∧
  s'.homeCity = s.homeCity ∧
  s'.distanceMatrix = s.distanceMatrix ∧
  s'.selectedCities = s.selectedCities ∧
  s'.routeBetween = s.routeBetween ∧
  s'.loading = s.loading ∧
  s'.cityPositions = s.cityPositions

/-- C10: `startNewGame` is atomic with respect to the game state: on a
thrown exception or a non-ok response it modifies only the `error` and
`result` cells (in particular `result` becomes `none`), and on a
successful response it resets the selection and the route to empty and
installs the response's session data. -/
theorem startNewGame_atomic (s : AppState) (msg : String) (e : Option String)
    (d : NewGameData) (rnd : ℕ → ℚ) (hname : jsTrim s.playerName ≠ "") :
    SameGameState s (startNewGame s (NetResult.thrown msg) rnd) ∧
    (startNewGame s (NetResult.thrown msg) rnd).result = none ∧
    SameGameState s (startNewGame s (NetResult.notOk e) rnd) ∧
    (startNewGame s (NetResult.notOk e) rnd).result = none ∧
    ((startNewGame s (NetResult.ok d) rnd).selectedCities = [] ∧
     (startNewGame s (NetResult.ok d) rnd).routeBetween = [] ∧
     (startNewGame s (NetResult.ok d) rnd).sessionId = some d.sessionId ∧
     (startNewGame s (NetResult.ok d) rnd).cities = d.cities ∧
     (startNewGame s (NetResult.ok d) rnd).homeCity = some d.homeCity ∧
     (startNewGame s (NetResult.ok d) rnd).distanceMatrix = d.distanceMatrix ∧
     (startNewGame s (NetResult.ok d) rnd).cityPositions =
       generateRandomPositions d.cities rnd ∧
     (startNewGame s (NetResult.ok d) rnd).result = none ∧
     (startNewGame s (NetResult.ok d) rnd).error = none) := by
  refine ⟨?_, ?_, ?_, ?_, ?_⟩ <;>
    simp [startNewGame, SameGameState, hname]

/-- Witness for `startNewGame_atomic` at the concrete state `exS4`. -/
theorem startNewGame_atomic_witness :
    jsTrim exS4.playerName ≠ "" ∧
    (SameGameState exS4 (startNewGame exS4 (NetResult.thrown "down") rnd0) ∧
     (startNewGame exS4 (NetResult.thrown "down") rnd0).result = none ∧
     SameGameState exS4 (startNewGame exS4 (NetResult.notOk (some "oops")) rnd0) ∧
     (startNewGame exS4 (NetResult.notOk (some "oops")) rnd0).result = none ∧
     ((startNewGame exS4 (NetResult.ok exData) rnd0).selectedCities = [] ∧
      (startNewGame exS4 (NetResult.ok exData) rnd0).routeBetween = [] ∧
      (startNewGame exS4 (NetResult.ok exData) rnd0).sessionId = some exData.sessionId ∧
      (startNewGame exS4 (NetResult.ok exData) rnd0).cities = exData.cities ∧
      (startNewGame exS4 (NetResult.ok exData) rnd0).homeCity = some exData.homeCity ∧
      (startNewGame exS4 (NetResult.ok exData) rnd0).distanceMatrix = exData.distanceMatrix ∧
      (startNewGame exS4 (NetResult.ok exData) rnd0).cityPositions =
        generateRandomPositions exData.cities rnd0 ∧
      (startNewGame exS4 (NetResult.ok exData) rnd0).result = none ∧
      (startNewGame exS4 (NetResult.ok exData) rnd0).error = none)) :=
  ⟨by decide,
   startNewGame_atomic exS4 "down" (some "oops") exData rnd0 (by decide)⟩

/-- Coordinates in the inclusive square `[30, 230] × [30, 230]` of the
`260 × 260` viewport. -/
abbrev InViewport (p : Pos) : Prop :=
  30 ≤ p.1 ∧ p.1 ≤ 230 ∧ 30 ≤ p.2 ∧ p.2 ≤ 230

lemma genPosGo_isSome (rnd : ℕ → ℚ) (l : List String) :
    ∀ (k : ℕ) (acc : String → Option Pos) (c : String),
      (genPosGo rnd l k acc c).isSome = true ↔ c ∈ l ∨ (acc c).isSome = true := by
  induction l with
  | nil => intro k acc c; simp [genPosGo]
  | cons city rest ih =>
      intro k acc c
      rw [genPosGo, ih]
      by_cases hc : c = city
      · simp [hc]
      · simp [hc]

lemma genPosGo_bounds (rnd : ℕ → ℚ) (hr : ∀ j, 0 ≤ rnd j ∧ rnd j < 1) (l : List String) :
    ∀ (k : ℕ) (acc : String → Option Pos),
      (∀ c p, acc c = some p → InViewport p) →
      ∀ c p, genPosGo rnd l k acc c = some p → InViewport p := by
  induction l with
  | nil => intro k acc hacc c p hp; exact hacc c p hp
  | cons city rest ih =>
      intro k acc hacc c p hp
      refine ih (k + 2) _ ?_ c p hp
      intro c' p' hp'
      by_cases hc : c' = city
      · rw [if_pos hc] at hp'
        obtain ⟨h0, h1⟩ := hr k
        obtain ⟨h0', h1'⟩ := hr (k + 1)
        cases hp'
        refine ⟨?_, ?_, ?_, ?_⟩ <;> dsimp only <;> nlinarith
      · rw [if_neg hc] at hp'
        exact hacc c' p' hp'

/-- C9: `generateRandomPositions` yields a position exactly for the cities
of the input list, and — provided every random draw lies in `[0, 1)` —
each coordinate lies in the inclusive range
`[margin, width - margin] = [30, 230]` of the `260 × 260` viewport. -/
theorem generateRandomPositions_domain_and_bounds (l : List String) (rnd : ℕ → ℚ)
    (hr : ∀ j, 0 ≤ rnd j ∧ rnd j < 1) :
    (∀ c, (generateRandomPositions l rnd c).isSome = true ↔ c ∈ l) ∧
    (∀ c p, generateRandomPositions l rnd c = some p →
      30 ≤ p.1 ∧ p.1 ≤ 230 ∧ 30 ≤ p.2 ∧ p.2 ≤ 230) := by
  constructor
  · intro c
    rw [generateRandomPositions, genPosGo_isSome]
    simp
  · intro c p hp
    refine genPosGo_bounds rnd hr l 0 _ ?_ c p hp
    intro c' p' hp'
    cases hp'

/-- The constant random stream with value one half. -/
def rndHalf : ℕ → ℚ := fun _ => 1 / 2

/-- Witness for `generateRandomPositions_domain_and_bounds` on the
single-city list `[A]` with every draw equal to one half. -/
theorem generateRandomPositions_domain_and_bounds_witness :
    (∀ j, 0 ≤ rndHalf j ∧ rndHalf j < 1) ∧
    ((∀ c, (generateRandomPositions ["A"] rndHalf c).isSome = true ↔ c ∈ ["A"]) ∧
     (∀ c p, generateRandomPositions ["A"] rndHalf c = some p →
       30 ≤ p.1 ∧ p.1 ≤ 230 ∧ 30 ≤ p.2 ∧ p.2 ≤ 230)) :=
  ⟨fun _ => by norm_num [rndHalf],
   generateRandomPositions_domain_and_bounds ["A"] rndHalf (fun _ => by norm_num [rndHalf])⟩

lemma filterMap_eq_map_of_some {α β : Type} (l : List α) (f : α → Option β) (g : α → β)
    (h : ∀ a ∈ l, f a = some (g a)) : l.filterMap f = l.map g := by
  induction l with
  | nil => rfl
  | cons a t ih =>
      have ha := h a (List.mem_cons_self a t)
      simp [List.filterMap_cons, ha, ih (fun x hx => h x (List.mem_cons_of_mem a hx))]

lemma flatMap_congr_mem {α β : Type} (l : List α) (f g : α → List β)
    (h : ∀ a ∈ l, f a = g a) : l.flatMap f = l.flatMap g := by
  induction l with
  | nil => rfl
  | cons a t ih =>
      simp [List.flatMap_cons, h a (List.mem_cons_self a t),
            ih (fun x hx => h x (List.mem_cons_of_mem a hx))]

lemma getD_eq_get_of_lt {α : Type} (l : List α) (d : α) (n : ℕ) (h : n < l.length) :
    l.getD n d = l[n] := by
  rw [List.getD_eq_getElem?_getD, List.getElem?_eq_getElem h]
  rfl

lemma getElem?_eq_some_getD {α : Type} (l : List α) (d : α) (n : ℕ) (h : n < l.length) :
    l[n]? = some (l.getD n d) := by
  rw [List.getElem?_eq_getElem h, getD_eq_get_of_lt l d n h]

lemma renderMatrixRows_getD (cities : List String) (dm : List (List Nat)) (i : ℕ)
    (h : i < dm.length) :
    (renderMatrixRows cities dm).getD i (none, []) =
      (cities[i]?, dm[i].enum.map (fun jd => if i = jd.1 then Cell.dash else Cell.dist jd.2)) := by
  unfold renderMatrixRows
  rw [List.getD_eq_getElem?_getD, List.getElem?_map, List.getElem?_enum,
      List.getElem?_eq_getElem h]
  rfl

/-- C6: when every city has a position and the matrix is a full
`n × n` grid, the map draws exactly one labelled edge per unordered pair
`{i, j}` with `i < j`, labelled `distanceMatrix[i][j]` and anchored at the
positions of `cities[i]` and `cities[j]`; and the distance grid heads row
`i` with `cities[i]` and renders `distanceMatrix[i][j]` in cell `(i, j)`
(dash on the diagonal).  Only the spec's symmetry invariant makes this one
number stand for both directions. -/
theorem map_edges_and_grid_follow_matrix (cities : List String) (dm : List (List Nat))
    (p : String → Pos) (hn : 0 < cities.length) (hdm : dm.length = cities.length)
    (hrow : ∀ r ∈ dm, r.length = cities.length) :
    edges cities dm (fun c => some (p c)) = (allPairs cities.length).map (edgeFor cities dm p) ∧
    (∀ i, i < cities.length → matrixRowLabel cities dm i = some (cities.getD i "")) ∧
    (∀ i j, i < cities.length → j < cities.length →
      matrixCellAt cities dm i j =
        if i = j then Cell.dash else Cell.dist ((dm.getD i []).getD j 0)) := by
  refine ⟨?_, ?_, ?_⟩
  · unfold edges allPairs
    rw [if_neg (by omega)]
    rw [List.map_flatMap]
    apply flatMap_congr_mem
    intro i hi
    have hi' : i < cities.length := List.mem_range.mp hi
    have hidm : i < dm.length := by omega
    rw [List.map_map]
    apply filterMap_eq_map_of_some
    intro j hj
    have hj' := List.mem_range'_1.mp hj
    have hjn : j < cities.length := by omega
    have hrlen : dm[i].length = cities.length := hrow _ (List.getElem_mem hidm)
    have hgetDrow : dm.getD i [] = dm[i] := getD_eq_get_of_lt dm [] i hidm
    have hjrow : j < (dm.getD i []).length := by rw [hgetDrow]; omega
    rw [getElem?_eq_some_getD (dm.getD i []) 0 j hjrow]
    rfl
  · intro i hi
    have hidm : i < dm.length := by omega
    unfold matrixRowLabel
    rw [renderMatrixRows_getD cities dm i hidm]
    show cities[i]? = some (cities.getD i "")
    exact getElem?_eq_some_getD cities "" i hi
  · intro i j hi hj
    have hidm : i < dm.length := by omega
    have hrlen : dm[i].length = cities.length := hrow _ (List.getElem_mem hidm)
    have hjrow : j < dm[i].length := by omega
    have hgetDrow : dm.getD i [] = dm[i] := getD_eq_get_of_lt dm [] i hidm
    unfold matrixCellAt
    rw [renderMatrixRows_getD cities dm i hidm]
    show (dm[i].enum.map (fun jd => if i = jd.1 then Cell.dash else Cell.dist jd.2)).getD j
        Cell.dash = if i = j then Cell.dash else Cell.dist ((dm.getD i []).getD j 0)
    rw [List.getD_eq_getElem?_getD, List.getElem?_map, List.getElem?_enum,
        List.getElem?_eq_getElem hjrow]
    rw [hgetDrow, getD_eq_get_of_lt (dm[i]) 0 j hjrow]
    rfl

/-- A constant position assignment used to witness the map/grid theorem. -/
def pConst : String → Pos := fun _ => (100, 100)

/-- Witness for `map_edges_and_grid_follow_matrix` on a concrete two-city
instance with the matrix `[[0, 50], [50, 0]]`. -/
theorem map_edges_and_grid_follow_matrix_witness :
    (0 < (["A", "B"] : List String).length ∧
     ([[0, 50], [50, 0]] : List (List Nat)).length = (["A", "B"] : List String).length ∧
     (∀ r ∈ ([[0, 50], [50, 0]] : List (List Nat)), r.length = (["A", "B"] : List String).length)) ∧
    (edges ["A", "B"] [[0, 50], [50, 0]] (fun c => some (pConst c)) =
       (allPairs (["A", "B"] : List String).length).map
         (edgeFor ["A", "B"] [[0, 50], [50, 0]] pConst) ∧
     (∀ i, i < (["A", "B"] : List String).length →
       matrixRowLabel ["A", "B"] [[0, 50], [50, 0]] i =
         some ((["A", "B"] : List String).getD i "")) ∧
     (∀ i j, i < (["A", "B"] : List String).length → j < (["A", "B"] : List String).length →
       matrixCellAt ["A", "B"] [[0, 50], [50, 0]] i j =
         if i = j then Cell.dash
         else Cell.dist ((([[0, 50], [50, 0]] : List (List Nat)).getD i []).getD j 0))) :=
  ⟨⟨by decide, by decide, by decide⟩,
   map_edges_and_grid_follow_matrix ["A", "B"] [[0, 50], [50, 0]] pConst
     (by decide) (by decide) (by decide)⟩
